import Mathlib

/- Shallow embedding of the NeurOS spaced-repetition / memory-decay engine:
   - src/backend/app/core/srs.py          (SRSEngine)
   - src/backend/app/core/decay.py        (DecayEngine)
   - src/backend/app/services/srs_service.py   (SRSService.submit_review)
   - src/backend/app/services/decay_service.py (DecayService.record_practice,
                                                DecayService._calculate_streaks)

   Modelling conventions:
   - Python floats are modelled exactly as rationals (ℚ); the transcendental
     parts of the decay computation (math.exp / math.log) are modelled over ℝ.
   - Timestamps (datetime) are integer seconds; `timedelta(days=d)` adds
     `d * 86400` seconds; `.date()` is floor division by 86400.
   - Python `int(x)` on a float is truncation toward zero.
   - `timedelta.days` is floor division of the signed duration by one day.
   - Reads of `datetime.now(timezone.utc)` that occur *inside* the engine are
     made explicit as a `clock` parameter, so that dependence on the hidden
     wall clock becomes dependence on that parameter.
   - A Python exception is modelled as `none` in an `Option` result. -/

/-- Truncation toward zero on ℚ: the semantics of Python `int(x)` for a float `x`. -/
def pyTruncQ (x : ℚ) : ℤ := if 0 ≤ x then ⌊x⌋ else ⌈x⌉

/-- Truncation toward zero on ℝ: the semantics of Python `int(x)` for a float `x`. -/
noncomputable def pyTruncR (x : ℝ) : ℤ := if 0 ≤ x then ⌊x⌋ else ⌈x⌉

/-- settings.SRS_MINIMUM_EASE_FACTOR = 1.3 (app/config.py line 58). -/
def SRS_MINIMUM_EASE_FACTOR : ℚ := 13 / 10

/-- settings.SRS_INITIAL_INTERVAL_DAYS = 1 (app/config.py line 59). -/
def SRS_INITIAL_INTERVAL_DAYS : ℤ := 1

/-- SRSEngine.LEARNING_STEPS = [0, 1, 3] (srs.py line 64). -/
def LEARNING_STEPS : List ℤ := [0, 1, 3]

/-- SRSEngine.MIN_INTERVAL = 1 (srs.py line 67). -/
def MIN_INTERVAL : ℤ := 1

/-- SRSEngine.MAX_INTERVAL = 365 (srs.py line 68). -/
def MAX_INTERVAL : ℤ := 365

/-- SRSResult (srs.py lines 42-49). `nextReviewDate` is a timestamp in seconds. -/
structure SRSResult where
  nextIntervalDays : ℤ
  newEaseFactor : ℚ
  nextReviewDate : ℤ
  isGraduated : Bool
  repetitionNumber : ℕ
deriving DecidableEq

/-- SRSEngine._handle_lapse (srs.py lines 108-136).  The `quality` and
`repetition_number` arguments of the Python function are unused by its body and
omitted here.  `clock` is the internal `datetime.now(timezone.utc)` read at
srs.py line 133, in seconds. -/
def handleLapse (ease_factor : ℚ) (clock : ℤ) : SRSResult :=
  let new_ease_factor := max SRS_MINIMUM_EASE_FACTOR (ease_factor - 2 / 10)
  let step0 := LEARNING_STEPS.headI
  let next_interval := if step0 = 0 then 1 else step0
  { nextIntervalDays := next_interval
    newEaseFactor := new_ease_factor
    nextReviewDate := clock + next_interval * 86400
    isGraduated := false
    repetitionNumber := 0 }

/-- SRSEngine._handle_success (srs.py lines 138-188).  `clock` is the internal
`datetime.now(timezone.utc)` read at srs.py line 185, in seconds.
`int(current_interval * new_ease_factor)` at line 175 is truncation toward zero. -/
def handleSuccess (quality : ℤ) (current_interval : ℤ) (ease_factor : ℚ)
    (repetition_number : ℕ) (is_graduated : Bool) (clock : ℤ) : SRSResult :=
  let new_ease_factor :=
    max SRS_MINIMUM_EASE_FACTOR
      (ease_factor + (1 / 10 - (5 - (quality : ℚ)) * (2 / 25 + (5 - (quality : ℚ)) * (1 / 50))))
  let ni : ℤ × Bool :=
    if is_graduated = false then
      if repetition_number < LEARNING_STEPS.length - 1 then
        (LEARNING_STEPS.getD (repetition_number + 1) 0, false)
      else
        (SRS_INITIAL_INTERVAL_DAYS, true)
    else
      (if repetition_number = 0 then SRS_INITIAL_INTERVAL_DAYS
       else if repetition_number = 1 then 6
       else pyTruncQ ((current_interval : ℚ) * new_ease_factor), true)
  let next_interval := max MIN_INTERVAL (min MAX_INTERVAL ni.1)
  { nextIntervalDays := next_interval
    newEaseFactor := new_ease_factor
    nextReviewDate := clock + next_interval * 86400
    isGraduated := ni.2
    repetitionNumber := repetition_number + 1 }

/-- SRSEngine.calculate_next_review (srs.py lines 70-106): clamp quality to
[0,5], floor the ease factor at the minimum, then dispatch on quality < 3. -/
def calculateNextReview (quality : ℤ) (current_interval : ℤ) (ease_factor : ℚ)
    (repetition_number : ℕ) (is_graduated : Bool) (clock : ℤ) : SRSResult :=
  let q := max 0 (min 5 quality)
  let ef := max SRS_MINIMUM_EASE_FACTOR ease_factor
  if q < 3 then handleLapse ef clock
  else handleSuccess q current_interval ef repetition_number is_graduated clock

/-- SRSEngine.get_priority_score (srs.py lines 190-223).  `clock` is the
internal `datetime.now(timezone.utc)` read at srs.py line 206.
`days_overdue` is `timedelta.days`: floor division of the signed difference in
seconds by 86400. -/
def getPriorityScore (next_review_date : ℤ) (decay_score : ℤ) (ease_factor : ℚ)
    (clock : ℤ) : ℚ :=
  let days_overdue : ℤ := (clock - next_review_date).fdiv 86400
  let overdue_score : ℚ := ((max 0 days_overdue : ℤ) : ℚ) * 10
  let decay_contribution : ℚ := (100 - (decay_score : ℚ)) * (1 / 2)
  let difficulty_contribution : ℚ := (3 - ease_factor) * 5
  overdue_score + decay_contribution + difficulty_contribution

/-- ReviewStatus (app/models/srs_review.py lines 32-37). -/
inductive ReviewStatus where
  | learning
  | review
  | suspended
  | buried
deriving DecidableEq

/-- Persisted scheduling state of an SRSReview row (app/models/srs_review.py),
restricted to the fields read or written by SRSService.submit_review. -/
structure ReviewState where
  intervalDays : ℤ
  easeFactor : ℚ
  repetitionNumber : ℕ
  status : ReviewStatus
  nextReviewAt : ℤ
  lastReviewAt : Option ℤ
  reviewCount : ℕ
  lapseCount : ℕ
  lastQuality : Option ℤ
  isLeech : Bool
deriving DecidableEq

/-- SRSReview.is_graduated property (srs_review.py): `status == ReviewStatus.REVIEW`. -/
def ReviewState.isGraduated (r : ReviewState) : Bool := r.status = ReviewStatus.review

/-- SRSService.submit_review state update (srs_service.py lines 165-218), on the
persisted scheduling fields (the optional time-taken accumulation is omitted).
Note line 193: `review.status` is assigned only when `srs_result.is_graduated`
is true; there is no else branch.  Lines 197-200: lapse count and leech flag.
`clock` stands for the `datetime.now(timezone.utc)` reads made during the call. -/
def submitReview (review : ReviewState) (quality : ℤ) (clock : ℤ) : ReviewState :=
  let srs_result := calculateNextReview quality review.intervalDays review.easeFactor
      review.repetitionNumber review.isGraduated clock
  let new_lapse_count := if quality < 3 then review.lapseCount + 1 else review.lapseCount
  { intervalDays := srs_result.nextIntervalDays
    easeFactor := srs_result.newEaseFactor
    repetitionNumber := srs_result.repetitionNumber
    status := if srs_result.isGraduated then ReviewStatus.review else review.status
    nextReviewAt := srs_result.nextReviewDate
    lastReviewAt := some clock
    reviewCount := review.reviewCount + 1
    lapseCount := new_lapse_count
    lastQuality := some quality
    isLeech := if quality < 3 ∧ 8 ≤ new_lapse_count then true else review.isLeech }

/-- Concrete Review-phase state used to exercise the lapse path of
submit_review. -/
def lapseInputState : ReviewState :=
  { intervalDays := 6
    easeFactor := 5 / 2
    repetitionNumber := 3
    status := ReviewStatus.review
    nextReviewAt := 0
    lastReviewAt := none
    reviewCount := 3
    lapseCount := 0
    lastQuality := some 4
    isLeech := false }

/-- settings.DECAY_HALF_LIFE_DAYS = 7.0 (app/config.py line 62), read as
DecayEngine.BASE_HALF_LIFE (decay.py line 62). -/
def DECAY_HALF_LIFE_DAYS : ℚ := 7

/-- settings.DECAY_CRITICAL_THRESHOLD = 40 (app/config.py line 63). -/
def DECAY_CRITICAL_THRESHOLD : ℤ := 40

/-- settings.DECAY_WARNING_THRESHOLD = 60 (app/config.py line 64). -/
def DECAY_WARNING_THRESHOLD : ℤ := 60

/-- DecayEngine.REVIEW_STABILITY_BONUS = 0.3 (decay.py line 65). -/
def REVIEW_STABILITY_BONUS : ℚ := 3 / 10

/-- DecayEngine.MAX_STABILITY_MULTIPLIER = 5.0 (decay.py line 66). -/
def MAX_STABILITY_MULTIPLIER : ℚ := 5

/-- Review bonus sum of DecayEngine._calculate_stability (decay.py lines
160-163): `sum(0.3 * 0.8 ** i for i in range(times_reviewed))`. -/
def reviewBonus : ℕ → ℚ
  | 0 => 0
  | n + 1 => reviewBonus n + REVIEW_STABILITY_BONUS * (4 / 5) ^ n

/-- DecayEngine._calculate_stability (decay.py lines 145-175): base 1.0 plus the
diminishing review bonus, times the difficulty modifier `1 - d/200`, times the
quality modifier `0.7 + q/5 * 0.6`, capped above at 5.0 (no lower cap). -/
def calculateStability (times_reviewed : ℕ) (initial_difficulty : ℤ)
    (last_quality : ℤ) : ℚ :=
  let stability := 1 + reviewBonus times_reviewed
  let difficulty_modifier := 1 - (initial_difficulty : ℚ) / 200
  let quality_modifier := 7 / 10 + (last_quality : ℚ) / 5 * (3 / 5)
  min (stability * difficulty_modifier * quality_modifier) MAX_STABILITY_MULTIPLIER

/-- DecayStatus (decay.py lines 34-40). -/
inductive DecayStatus where
  | fresh
  | stable
  | decaying
  | critical
  | forgotten
deriving DecidableEq

/-- DecayEngine._get_status (decay.py lines 177-189). -/
def getStatus (decay_score : ℤ) : DecayStatus :=
  if 80 ≤ decay_score then DecayStatus.fresh
  else if 60 ≤ decay_score then DecayStatus.stable
  else if 40 ≤ decay_score then DecayStatus.decaying
  else if 20 ≤ decay_score then DecayStatus.critical
  else DecayStatus.forgotten

/-- DecayEngine._days_until_threshold (decay.py lines 191-213): none when the
score is already at or below the threshold, otherwise
`max(0, int(-half_life * log((threshold/100)/(score/100)) / log 2))`. -/
noncomputable def daysUntilThreshold (current_score : ℤ) (threshold : ℤ)
    (half_life : ℝ) : Option ℤ :=
  if current_score ≤ threshold then none
  else
    some (max 0 (pyTruncR (-half_life *
      Real.log (((threshold : ℝ) / 100) / ((current_score : ℝ) / 100)) / Real.log 2)))

/-- DecayResult (decay.py lines 43-50).  `recommendedReviewDate` is a timestamp
in seconds. -/
structure DecayResult where
  decayScore : ℤ
  status : DecayStatus
  daysUntilCritical : Option ℤ
  recommendedReviewDate : ℤ
  stabilityFactor : ℚ
deriving DecidableEq

/-- DecayEngine.calculate_decay_score (decay.py lines 68-143).  Timestamps are
seconds; `time_elapsed` is the elapsed time in (fractional) days.  The branch at
lines 130-132 evaluates `datetime.timedelta`, but decay.py line 27 imports the
*class* `datetime`, which has no `timedelta` attribute, so that branch raises
AttributeError: it is modelled as `none`.  The remaining branch (line 135)
returns a result with `recommended_review = current_time`. -/
noncomputable def calculateDecayScore (last_practiced_at : ℤ) (times_reviewed : ℕ)
    (initial_difficulty : ℤ) (last_quality : ℤ) (current_time : ℤ) :
    Option DecayResult :=
  let time_elapsed : ℝ := ((current_time : ℝ) - (last_practiced_at : ℝ)) / 86400
  let stability : ℚ := calculateStability times_reviewed initial_difficulty last_quality
  let half_life : ℝ := (DECAY_HALF_LIFE_DAYS : ℚ) * (stability : ℝ)
  let retention : ℝ := Real.exp (-time_elapsed / half_life * Real.log 2)
  let decay_score : ℤ := max 0 (min 100 (pyTruncR (retention * 100)))
  let status := getStatus decay_score
  let days_until_critical := daysUntilThreshold decay_score DECAY_CRITICAL_THRESHOLD half_life
  let days_until_warning := daysUntilThreshold decay_score DECAY_WARNING_THRESHOLD half_life
  match days_until_warning with
  | some d =>
    if 0 < d then none
    else some { decayScore := decay_score, status := status,
                daysUntilCritical := days_until_critical,
                recommendedReviewDate := current_time, stabilityFactor := stability }
  | none => some { decayScore := decay_score, status := status,
                   daysUntilCritical := days_until_critical,
                   recommendedReviewDate := current_time, stabilityFactor := stability }

/-- DecayTracking row state (app/models/decay_tracking.py), restricted to the
fields read or written by DecayService.record_practice.  `nextReviewDate` is a
calendar date modelled as a day index (timestamp seconds divided by 86400,
floored). -/
structure DecayTrackState where
  decayScore : ℤ
  stabilityFactor : ℚ
  lastPracticedAt : Option ℤ
  timesReviewed : ℕ
  initialDifficulty : ℤ
  lastQuality : Option ℤ
  nextReviewDate : Option ℤ
deriving DecidableEq

/-- DecayService.record_practice (decay_service.py lines 263-310) on an existing
DecayTracking row (the `if decay:` branch, lines 285-293): reset the score to
100, stamp `now`, bump the review count, store the quality, and set the next
review date from the *stored* stability factor via
`max(1, int(stability_factor * DECAY_HALF_LIFE_DAYS * 0.5))` days ahead.
The stability factor itself is not modified. -/
def recordPractice (decay : DecayTrackState) (now : ℤ) (quality : ℤ) : DecayTrackState :=
  let days_until_review : ℤ :=
    max 1 (pyTruncQ (decay.stabilityFactor * DECAY_HALF_LIFE_DAYS * (1 / 2)))
  { decay with
    lastPracticedAt := some now
    timesReviewed := decay.timesReviewed + 1
    lastQuality := some quality
    decayScore := 100
    nextReviewDate := some ((now + days_until_review * 86400).fdiv 86400) }

/-- Loop body of the first loop of DecayService._calculate_streaks
(decay_service.py lines 241-251) on the state (temp_streak, longest_streak).
The conditional current_streak assignment inside that loop (lines 245-246) is
dead: current_streak is unconditionally recomputed by the second loop (lines
253-259), so only temp_streak and longest_streak flow into the result. -/
def streakStep (acc : ℕ × ℕ) (c : ℕ) : ℕ × ℕ :=
  if 0 < c then (acc.1 + 1, max acc.2 (acc.1 + 1)) else (0, acc.2)

/-- First loop of _calculate_streaks: iterate streakStep over `reversed(days)`.
A right fold applies the head of the list last, which is exactly the reversed
iteration order. -/
def longestStreakRun (days : List ℕ) : ℕ :=
  (days.foldr (fun c acc => streakStep acc c) (0, 0)).2

/-- Second loop of _calculate_streaks (decay_service.py lines 253-259), written
on the already-reversed list: count consecutive positive-count days from the
head and stop at the first zero-count day. -/
def backwardScan : List ℕ → ℕ
  | [] => 0
  | c :: rest => if 0 < c then backwardScan rest + 1 else 0

/-- DecayService._calculate_streaks (decay_service.py lines 234-261) on the
window's day counts, returning (current_streak, longest_streak). -/
def calculateStreaks (days : List ℕ) : ℕ × ℕ :=
  (backwardScan days.reverse, longestStreakRun days)

/-- Property of a list being one of the contiguous all-practiced runs of the
window: an infix of the day-count list all of whose counts are positive. -/
def PosRun (days t : List ℕ) : Prop := t <:+: days ∧ ∀ x ∈ t, 0 < x

/-- SRSResult with the repetition counter as a raw Python int, for the
generalized model of _handle_success over out-of-range repetition counts. -/
structure SRSResultZ where
  nextIntervalDays : ℤ
  newEaseFactor : ℚ
  nextReviewDate : ℤ
  isGraduated : Bool
  repetitionNumber : ℤ
deriving DecidableEq

/-- Widening of an SRSResult of the data-model domain (repetition count ≥ 0)
into the raw-int result type. -/
def toResultZ (r : SRSResult) : SRSResultZ :=
  { nextIntervalDays := r.nextIntervalDays
    newEaseFactor := r.newEaseFactor
    nextReviewDate := r.nextReviewDate
    isGraduated := r.isGraduated
    repetitionNumber := (r.repetitionNumber : ℤ) }

/-- Python list subscript `l[i]`: a negative index addresses from the end of
the list, and an index out of range (below -len or at/above len) raises
IndexError, modelled as `none`. -/
def pyListGet (l : List ℤ) (i : ℤ) : Option ℤ :=
  if 0 ≤ i then
    if i < (l.length : ℤ) then some (l.getD i.toNat 0) else none
  else
    if 0 ≤ i + (l.length : ℤ) then some (l.getD (i + (l.length : ℤ)).toNat 0) else none

/-- SRSEngine._handle_success (srs.py lines 138-188) with `repetition_number` as
a raw Python int: identical to handleSuccess except that the learning-ladder
subscript `LEARNING_STEPS[repetition_number + 1]` at line 162 follows Python
indexing semantics, so a negative repetition count wraps from the end of the
3-element list and raises IndexError (`none`) once `repetition_number + 1 < -3`. -/
def handleSuccessZ (quality : ℤ) (current_interval : ℤ) (ease_factor : ℚ)
    (repetition_number : ℤ) (is_graduated : Bool) (clock : ℤ) : Option SRSResultZ :=
  let new_ease_factor :=
    max SRS_MINIMUM_EASE_FACTOR
      (ease_factor + (1 / 10 - (5 - (quality : ℚ)) * (2 / 25 + (5 - (quality : ℚ)) * (1 / 50))))
  let ni : Option (ℤ × Bool) :=
    if is_graduated = false then
      if repetition_number < (LEARNING_STEPS.length : ℤ) - 1 then
        (pyListGet LEARNING_STEPS (repetition_number + 1)).map (fun v => (v, false))
      else
        some (SRS_INITIAL_INTERVAL_DAYS, true)
    else
      some (if repetition_number = 0 then SRS_INITIAL_INTERVAL_DAYS
            else if repetition_number = 1 then 6
            else pyTruncQ ((current_interval : ℚ) * new_ease_factor), true)
  ni.map fun p =>
    let next_interval := max MIN_INTERVAL (min MAX_INTERVAL p.1)
    { nextIntervalDays := next_interval
      newEaseFactor := new_ease_factor
      nextReviewDate := clock + next_interval * 86400
      isGraduated := p.2
      repetitionNumber := repetition_number + 1 }

/-- SRSEngine.calculate_next_review (srs.py lines 70-106) with
`repetition_number` as a raw Python int; `none` models the IndexError that
escapes from _handle_success on deeply negative repetition counts.  The lapse
branch never subscripts the ladder and cannot raise. -/
def calculateNextReviewZ (quality : ℤ) (current_interval : ℤ) (ease_factor : ℚ)
    (repetition_number : ℤ) (is_graduated : Bool) (clock : ℤ) : Option SRSResultZ :=
  let q := max 0 (min 5 quality)
  let ef := max SRS_MINIMUM_EASE_FACTOR ease_factor
  if q < 3 then some (toResultZ (handleLapse ef clock))
  else handleSuccessZ q current_interval ef repetition_number is_graduated clock

theorem pyTruncQ_mono {x y : ℚ} (h : x ≤ y) : pyTruncQ x ≤ pyTruncQ y := by
  unfold pyTruncQ
  by_cases hx : 0 ≤ x <;> by_cases hy : 0 ≤ y <;> simp [hx, hy]
  · exact Int.floor_le_floor h
  · exact absurd (le_trans hx h) hy
  · exact le_trans (Int.ceil_le.mpr (by exact_mod_cast le_of_not_le hx))
      (Int.floor_nonneg.mpr hy)
  · exact Int.ceil_le_ceil h

theorem pyTruncQ_nonpos {x : ℚ} (h : x ≤ 0) : pyTruncQ x ≤ 0 := by
  unfold pyTruncQ
  by_cases hx : 0 ≤ x <;> simp [hx]
  · exact Int.floor_nonpos h
  · exact Int.ceil_le.mpr (by exact_mod_cast h)

/-- C2: on a lapse (quality < 3) from a Review-phase state, submit_review
updates ease, interval, repetition and lapse bookkeeping as specified, but the
claimed transition of `status` to Learning does not happen: srs_service.py line
193 assigns `status` only when `is_graduated` is true, so the status stays
Review.  Evaluated at the failing input: state {interval 6, ease 2.5, rep 3,
status Review, lapseCount 0}, quality 2. -/
theorem C2_lapse_keeps_review_status :
    (submitReview lapseInputState 2 0).easeFactor = 23 / 10 ∧
    (submitReview lapseInputState 2 0).intervalDays = 1 ∧
    (submitReview lapseInputState 2 0).repetitionNumber = 0 ∧
    (submitReview lapseInputState 2 0).lapseCount = 1 ∧
    (submitReview lapseInputState 2 0).isLeech = false ∧
    (submitReview lapseInputState 2 0).status = ReviewStatus.review ∧
    ReviewStatus.review ≠ ReviewStatus.learning := by
  refine ⟨?_, ?_, ?_, ?_, ?_, ?_, by simp⟩ <;>
    norm_num [submitReview, calculateNextReview, handleLapse, lapseInputState,
      ReviewState.isGraduated, SRS_MINIMUM_EASE_FACTOR, LEARNING_STEPS]

/-- C5 counterexample: in the Review phase with repetitionNumber ≥ 2 the code
computes `int(current_interval * new_ease_factor)` (truncation), not rounding.
At state {interval 7, ease 2.7, rep 2, Review} with quality 4 the new ease is
exactly 2.7, the product is 18.9, the code yields 18, while the claimed
`round(intervalDays * easeFactor')` is 19. -/
theorem C5_truncation_not_round :
    (calculateNextReview 4 7 (27 / 10) 2 true 0).newEaseFactor = 27 / 10 ∧
    (calculateNextReview 4 7 (27 / 10) 2 true 0).nextIntervalDays = 18 ∧
    round ((7 : ℚ) * (calculateNextReview 4 7 (27 / 10) 2 true 0).newEaseFactor) = 19 := by
  refine ⟨?_, ?_, ?_⟩ <;>
    norm_num [calculateNextReview, handleSuccess, pyTruncQ, SRS_MINIMUM_EASE_FACTOR,
      SRS_INITIAL_INTERVAL_DAYS, MIN_INTERVAL, MAX_INTERVAL, LEARNING_STEPS,
      round_eq, Int.floor_eq_iff]

theorem calcNextReview_clock_free (q i : ℤ) (e : ℚ) (r : ℕ) (g : Bool) (t₁ t₂ : ℤ) :
    (calculateNextReview q i e r g t₁).nextIntervalDays =
      (calculateNextReview q i e r g t₂).nextIntervalDays ∧
    (calculateNextReview q i e r g t₁).newEaseFactor =
      (calculateNextReview q i e r g t₂).newEaseFactor ∧
    (calculateNextReview q i e r g t₁).isGraduated =
      (calculateNextReview q i e r g t₂).isGraduated ∧
    (calculateNextReview q i e r g t₁).repetitionNumber =
      (calculateNextReview q i e r g t₂).repetitionNumber := by
  unfold calculateNextReview
  by_cases hq : max 0 (min 5 q) < 3 <;> simp only [hq, if_true, if_false] <;>
    exact ⟨rfl, rfl, rfl, rfl⟩

/-- C6 counterexample: with all explicit inputs fixed, two invocations of
calculate_next_review at different wall-clock instants (the internal
`datetime.now` read, made explicit as the last argument) return different
results — the claim that the output is identical across invocations is false. -/
theorem C6_hidden_clock_counterexample :
    calculateNextReview 4 6 (5 / 2) 1 true 0 ≠ calculateNextReview 4 6 (5 / 2) 1 true 86400 := by
  intro h
  have h2 := congrArg SRSResult.nextReviewDate h
  norm_num [calculateNextReview, handleSuccess, MIN_INTERVAL, MAX_INTERVAL,
    SRS_INITIAL_INTERVAL_DAYS] at h2

/-- C6 amended: the numeric scheduling outputs (interval, ease factor,
graduation flag, repetition number) are deterministic functions of the explicit
inputs alone, but `next_review_date` (srs.py lines 133 and 185) and the
priority score (srs.py line 206) are computed from an internal
`datetime.now(timezone.utc)` read, so those outputs vary with the hidden clock. -/
theorem C6_determinism_amended :
    (∀ (q i : ℤ) (e : ℚ) (r : ℕ) (g : Bool) (t₁ t₂ : ℤ),
      (calculateNextReview q i e r g t₁).nextIntervalDays =
        (calculateNextReview q i e r g t₂).nextIntervalDays ∧
      (calculateNextReview q i e r g t₁).newEaseFactor =
        (calculateNextReview q i e r g t₂).newEaseFactor ∧
      (calculateNextReview q i e r g t₁).isGraduated =
        (calculateNextReview q i e r g t₂).isGraduated ∧
      (calculateNextReview q i e r g t₁).repetitionNumber =
        (calculateNextReview q i e r g t₂).repetitionNumber) ∧
    (calculateNextReview 4 6 (5 / 2) 1 true 0).nextReviewDate ≠
      (calculateNextReview 4 6 (5 / 2) 1 true 86400).nextReviewDate ∧
    getPriorityScore 0 50 (5 / 2) 0 ≠ getPriorityScore 0 50 (5 / 2) 86400 := by
  refine ⟨calcNextReview_clock_free, ?_, ?_⟩
  · norm_num [calculateNextReview, handleSuccess, MIN_INTERVAL, MAX_INTERVAL,
      SRS_INITIAL_INTERVAL_DAYS]
  · have e1 : ((0 : ℤ) - 0).fdiv 86400 = 0 := by decide
    have e2 : ((86400 : ℤ) - 0).fdiv 86400 = 1 := by decide
    have ha : getPriorityScore 0 50 (5 / 2) 0 = 55 / 2 := by
      unfold getPriorityScore
      rw [e1]
      norm_num [max_def]
    have hb : getPriorityScore 0 50 (5 / 2) 86400 = 75 / 2 := by
      unfold getPriorityScore
      rw [e2]
      norm_num [max_def]
    rw [ha, hb]
    norm_num

theorem pyListGet_learningSteps_isSome {i : ℤ} (h1 : -3 ≤ i) (h2 : i < 3) :
    ∃ v, pyListGet LEARNING_STEPS i = some v := by
  unfold pyListGet
  by_cases h0 : 0 ≤ i
  · rw [if_pos h0, if_pos (by norm_num [LEARNING_STEPS]; omega)]
    exact ⟨_, rfl⟩
  · rw [if_neg h0, if_pos (by norm_num [LEARNING_STEPS]; omega)]
    exact ⟨_, rfl⟩

theorem handleSuccessZ_bounds (q i : ℤ) (e : ℚ) (r : ℤ) (g : Bool) (t : ℤ)
    (res : SRSResultZ) (h : handleSuccessZ q i e r g t = some res) :
    1 ≤ res.nextIntervalDays ∧ res.nextIntervalDays ≤ 365 ∧
      13 / 10 ≤ res.newEaseFactor := by
  simp only [handleSuccessZ, Option.map_eq_some'] at h
  obtain ⟨p, -, hp⟩ := h
  rw [← hp]
  exact ⟨le_max_left _ _,
    max_le (by norm_num [MIN_INTERVAL, MAX_INTERVAL])
      (le_trans (min_le_left _ _) (by norm_num [MAX_INTERVAL])),
    le_max_left _ _⟩

theorem handleSuccessZ_total (q i : ℤ) (e : ℚ) (r : ℤ) (g : Bool) (t : ℤ)
    (hr : -4 ≤ r ∨ g = true) :
    ∃ res, handleSuccessZ q i e r g t = some res := by
  simp only [handleSuccessZ]
  cases g with
  | true =>
    exact ⟨_, rfl⟩
  | false =>
    have hr4 : -4 ≤ r := by
      rcases hr with h | h
      · exact h
      · exact absurd h (by simp)
    by_cases hlt : r < (LEARNING_STEPS.length : ℤ) - 1
    · have hi : -3 ≤ r + 1 := by omega
      have hi2 : r + 1 < 3 := by
        norm_num [LEARNING_STEPS] at hlt
        omega
      obtain ⟨v, hv⟩ := pyListGet_learningSteps_isSome hi hi2
      rw [if_pos rfl, if_pos hlt, hv]
      exact ⟨_, rfl⟩
    · rw [if_pos rfl, if_neg hlt]
      exact ⟨_, rfl⟩

theorem calculateNextReviewZ_agrees (q i : ℤ) (e : ℚ) (r : ℕ) (g : Bool) (t : ℤ) :
    calculateNextReviewZ q i e (r : ℤ) g t =
      some (toResultZ (calculateNextReview q i e r g t)) := by
  unfold calculateNextReviewZ calculateNextReview
  by_cases hq : max 0 (min 5 q) < 3
  · simp [hq]
  · simp only [hq, if_false]
    cases g with
    | false =>
      by_cases hlt : (r : ℤ) < (LEARNING_STEPS.length : ℤ) - 1
      · have hrb : r ≤ 1 := by
          norm_num [LEARNING_STEPS] at hlt
          omega
        have hra : 0 ≤ r := Nat.zero_le r
        interval_cases r
        · simp [handleSuccessZ, handleSuccess, pyListGet, LEARNING_STEPS, toResultZ,
            show Int.toNat 1 = 1 from rfl]
        · simp [handleSuccessZ, handleSuccess, pyListGet, LEARNING_STEPS, toResultZ,
            show Int.toNat 2 = 2 from rfl]
      · have hltn : ¬(r < LEARNING_STEPS.length - 1) := by
          norm_num [LEARNING_STEPS] at hlt ⊢
          omega
        simp [handleSuccessZ, handleSuccess, hlt, hltn, toResultZ]
    | true =>
      by_cases h0 : r = 0
      · subst h0
        simp [handleSuccessZ, handleSuccess, toResultZ]
      · by_cases h1 : r = 1
        · subst h1
          simp [handleSuccessZ, handleSuccess, toResultZ]
        · have hz0 : ¬((r : ℤ) = 0) := by exact_mod_cast h0
          have hz1 : ¬((r : ℤ) = 1) := by exact_mod_cast h1
          simp [handleSuccessZ, handleSuccess, h0, h1, hz0, hz1, toResultZ]

/-- C8 counterexample: the engine does not normalize every structurally
out-of-range input.  An ungraduated state with repetition_number = -5 and a
success quality reaches `LEARNING_STEPS[repetition_number + 1]` (srs.py line
162) with subscript -4 on a 3-element list, which raises IndexError — the
input is rejected, not clamped, and no result exists. -/
theorem C8_negative_repetition_raises :
    calculateNextReviewZ 3 6 (5 / 2) (-5) false 0 = none := by
  have hpl : pyListGet [0, 1, 3] (-4) = none := by
    norm_num [pyListGet]
  simp only [calculateNextReviewZ, handleSuccessZ]
  norm_num [hpl, LEARNING_STEPS]

/-- C8 amended: for every input — out-of-range quality, interval and ease
included, which are normalized by clamping — calculate_next_review returns a
result with interval in [1, 365] and ease factor at least 1.3, provided the
repetition count is at least -4, or the state is graduated, or the quality is a
lapse (quality < 3).  Outside that region (repetition_number ≤ -5, Learning
phase, success quality) the learning-ladder subscript raises IndexError
instead of normalizing, as the counterexample shows. -/
theorem C8_result_in_bounds (q i : ℤ) (e : ℚ) (r : ℤ) (g : Bool) (t : ℤ)
    (hr : -4 ≤ r ∨ g = true ∨ q < 3) :
    ∃ res, calculateNextReviewZ q i e r g t = some res ∧
      1 ≤ res.nextIntervalDays ∧ res.nextIntervalDays ≤ 365 ∧
      13 / 10 ≤ res.newEaseFactor := by
  unfold calculateNextReviewZ
  by_cases hq : max 0 (min 5 q) < 3
  · rw [if_pos hq]
    refine ⟨_, rfl, ?_, ?_, ?_⟩ <;>
      norm_num [toResultZ, handleLapse, LEARNING_STEPS, SRS_MINIMUM_EASE_FACTOR]
  · rw [if_neg hq]
    have hr' : -4 ≤ r ∨ g = true := by
      rcases hr with h | h | h
      · exact Or.inl h
      · exact Or.inr h
      · exact absurd (max_lt (by norm_num) (lt_of_le_of_lt (min_le_right 5 q) h)) hq
    obtain ⟨res, hres⟩ := handleSuccessZ_total (max 0 (min 5 q)) i
      (max SRS_MINIMUM_EASE_FACTOR e) r g t hr'
    exact ⟨res, hres, handleSuccessZ_bounds _ _ _ _ _ _ _ hres⟩

theorem C8_result_in_bounds_witness :
    ((-4 : ℤ) ≤ -4 ∨ false = true ∨ (4 : ℤ) < 3) ∧
    (∃ res, calculateNextReviewZ 4 6 (5 / 2) (-4) false 0 = some res ∧
      1 ≤ res.nextIntervalDays ∧ res.nextIntervalDays ≤ 365 ∧
      13 / 10 ≤ res.newEaseFactor) :=
  ⟨Or.inl (by norm_num),
    C8_result_in_bounds 4 6 (5 / 2) (-4) false 0 (Or.inl (by norm_num))⟩

/-- C5 amended: in the Review phase with a success (3 ≤ quality ≤ 5) the next
interval is 1 day at repetitionNumber 0, 6 days at repetitionNumber 1, and
otherwise `int(current_interval * new_ease_factor)` — truncation toward zero,
not rounding — clamped to [1, 365]; the status stays Review (graduated) and the
repetition number increments.  In particular the state {interval 6, ease 2.5,
rep 1, Review} with quality 4 yields ease 2.5, interval 6, repetition 2. -/
theorem C5_review_interval_rule (q i : ℤ) (e : ℚ) (r : ℕ) (t : ℤ)
    (h3 : 3 ≤ q) (h5 : q ≤ 5) :
    ((calculateNextReview q i e r true t).nextIntervalDays =
      max 1 (min 365 (if r = 0 then 1 else if r = 1 then 6
        else pyTruncQ ((i : ℚ) * (calculateNextReview q i e r true t).newEaseFactor))) ∧
     (calculateNextReview q i e r true t).isGraduated = true ∧
     (calculateNextReview q i e r true t).repetitionNumber = r + 1) ∧
    (calculateNextReview 4 6 (5 / 2) 1 true t).newEaseFactor = 5 / 2 ∧
    (calculateNextReview 4 6 (5 / 2) 1 true t).nextIntervalDays = 6 ∧
    (calculateNextReview 4 6 (5 / 2) 1 true t).repetitionNumber = 2 := by
  have hmin : min 5 q = q := min_eq_right h5
  have hmax : max 0 q = q := max_eq_right (le_trans (by norm_num) h3)
  have hq3 : ¬q < 3 := not_lt.mpr h3
  constructor
  · unfold calculateNextReview
    simp only [hmin, hmax, hq3, if_false]
    refine ⟨?_, rfl, rfl⟩
    simp [handleSuccess, MIN_INTERVAL, MAX_INTERVAL, SRS_INITIAL_INTERVAL_DAYS]
  · refine ⟨?_, ?_, ?_⟩ <;>
      norm_num [calculateNextReview, handleSuccess, SRS_MINIMUM_EASE_FACTOR,
        MIN_INTERVAL, MAX_INTERVAL, SRS_INITIAL_INTERVAL_DAYS]

theorem C5_review_interval_rule_witness :
    (3 : ℤ) ≤ 4 ∧ (4 : ℤ) ≤ 5 ∧
    ((calculateNextReview 4 7 (27 / 10) 2 true 0).nextIntervalDays =
      max 1 (min 365 (if 2 = 0 then 1 else if 2 = 1 then 6
        else pyTruncQ ((7 : ℚ) * (calculateNextReview 4 7 (27 / 10) 2 true 0).newEaseFactor))) ∧
     (calculateNextReview 4 7 (27 / 10) 2 true 0).isGraduated = true ∧
     (calculateNextReview 4 7 (27 / 10) 2 true 0).repetitionNumber = 2 + 1) ∧
    (calculateNextReview 4 6 (5 / 2) 1 true 0).newEaseFactor = 5 / 2 ∧
    (calculateNextReview 4 6 (5 / 2) 1 true 0).nextIntervalDays = 6 ∧
    (calculateNextReview 4 6 (5 / 2) 1 true 0).repetitionNumber = 2 :=
  ⟨by norm_num, by norm_num,
    C5_review_interval_rule 4 7 (27 / 10) 2 0 (by norm_num) (by norm_num)⟩

/-- C9: in the Review phase, for any fixed prior state, quality 5 never yields a
shorter next interval than quality 4 (out-of-range stored intervals included:
for nonpositive intervals both qualities clamp to 1 day). -/
theorem C9_quality_monotone (i : ℤ) (e : ℚ) (r : ℕ) (t : ℤ) :
    (calculateNextReview 4 i e r true t).nextIntervalDays ≤
      (calculateNextReview 5 i e r true t).nextIntervalDays := by
  have he : (13 / 10 : ℚ) ≤ max SRS_MINIMUM_EASE_FACTOR e := by
    simp [SRS_MINIMUM_EASE_FACTOR]
  rcases r with _ | _ | r
  · norm_num [calculateNextReview, handleSuccess, MIN_INTERVAL, MAX_INTERVAL,
      SRS_INITIAL_INTERVAL_DAYS]
  · norm_num [calculateNextReview, handleSuccess, MIN_INTERVAL, MAX_INTERVAL,
      SRS_INITIAL_INTERVAL_DAYS]
  · have h4 : (calculateNextReview 4 i e r.succ.succ true t).nextIntervalDays =
        max 1 (min 365 (pyTruncQ ((i : ℚ) * max SRS_MINIMUM_EASE_FACTOR e))) := by
      norm_num [calculateNextReview, handleSuccess, MIN_INTERVAL, MAX_INTERVAL,
        max_eq_left he]
    have he' : SRS_MINIMUM_EASE_FACTOR ≤ max SRS_MINIMUM_EASE_FACTOR e + 1 / 10 := by
      have hS : SRS_MINIMUM_EASE_FACTOR = 13 / 10 := rfl
      rw [hS] at he ⊢
      linarith
    have h5 : (calculateNextReview 5 i e r.succ.succ true t).nextIntervalDays =
        max 1 (min 365 (pyTruncQ ((i : ℚ) * (max SRS_MINIMUM_EASE_FACTOR e + 1 / 10)))) := by
      norm_num [calculateNextReview, handleSuccess, MIN_INTERVAL, MAX_INTERVAL,
        max_eq_right he']
    rw [h4, h5]
    rcases le_or_lt 0 i with hi | hi
    · have : (i : ℚ) * max SRS_MINIMUM_EASE_FACTOR e ≤
          (i : ℚ) * (max SRS_MINIMUM_EASE_FACTOR e + 1 / 10) := by
        apply mul_le_mul_of_nonneg_left (by linarith) (by exact_mod_cast hi)
      exact max_le_max le_rfl (min_le_min le_rfl (pyTruncQ_mono this))
    · have hclamp : ∀ v : ℤ, v ≤ 0 → max 1 (min 365 v) = 1 := by
        intro v hv
        rw [min_eq_right (by omega), max_eq_left (by omega)]
      have hi' : (i : ℚ) ≤ 0 := by exact_mod_cast le_of_lt hi
      rw [hclamp _ (pyTruncQ_nonpos (mul_nonpos_of_nonpos_of_nonneg hi' (by linarith))),
        hclamp _ (pyTruncQ_nonpos (mul_nonpos_of_nonpos_of_nonneg hi' (by linarith)))]

theorem reviewBonus_nonneg (n : ℕ) : 0 ≤ reviewBonus n := by
  induction n with
  | zero => norm_num [reviewBonus]
  | succ n ih =>
    have hterm : (0 : ℚ) ≤ REVIEW_STABILITY_BONUS * (4 / 5) ^ n := by
      have h45 : (0 : ℚ) ≤ (4 / 5) ^ n := by positivity
      have hR : REVIEW_STABILITY_BONUS = 3 / 10 := rfl
      rw [hR]
      linarith
    simp only [reviewBonus]
    linarith

/-- C7 counterexample: the stability factor has no lower cap in the code; at
timesReviewed = 0, initialDifficulty = 100, lastQuality = 0 the code computes
1.0 × 0.5 × 0.7 = 0.35, below the claimed floor of 1.0. -/
theorem C7_stability_below_one :
    calculateStability 0 100 0 = 7 / 20 ∧ ¬(1 ≤ calculateStability 0 100 0) := by
  constructor <;>
    norm_num [calculateStability, reviewBonus, MAX_STABILITY_MULTIPLIER]

/-- C7 amended: for timesReviewed ≥ 0, initialDifficulty in [1, 100] and
lastQuality in [0, 5], the stability factor lies in [0.35, 5.0]: it is capped
above at MAX_STABILITY = 5.0 but its lower bound is 0.35 (= 1.0 × 0.5 × 0.7),
not 1.0 — the code applies no lower cap. -/
theorem C7_stability_bounds (n : ℕ) (d q : ℤ) (hd1 : 1 ≤ d) (hd2 : d ≤ 100)
    (hq0 : 0 ≤ q) (hq5 : q ≤ 5) :
    7 / 20 ≤ calculateStability n d q ∧ calculateStability n d q ≤ 5 := by
  have hb : 0 ≤ reviewBonus n := reviewBonus_nonneg n
  have hdc : (d : ℚ) ≤ 100 := by exact_mod_cast hd2
  have hqc : (0 : ℚ) ≤ (q : ℚ) := by exact_mod_cast hq0
  have hdm : (1 / 2 : ℚ) ≤ 1 - (d : ℚ) / 200 := by linarith
  have hqm : (7 / 10 : ℚ) ≤ 7 / 10 + (q : ℚ) / 5 * (3 / 5) := by linarith
  constructor
  · show (7 / 20 : ℚ) ≤
      min ((1 + reviewBonus n) * (1 - (d : ℚ) / 200) * (7 / 10 + (q : ℚ) / 5 * (3 / 5)))
        MAX_STABILITY_MULTIPLIER
    refine le_min ?_ (by norm_num [MAX_STABILITY_MULTIPLIER])
    have h1 : (1 / 2 : ℚ) ≤ (1 + reviewBonus n) * (1 - (d : ℚ) / 200) := by nlinarith
    nlinarith
  · exact le_trans (min_le_right _ _) (by norm_num [MAX_STABILITY_MULTIPLIER])

theorem C7_stability_bounds_witness :
    (1 : ℤ) ≤ 50 ∧ (50 : ℤ) ≤ 100 ∧ (0 : ℤ) ≤ 4 ∧ (4 : ℤ) ≤ 5 ∧
    (7 / 20 ≤ calculateStability 3 50 4 ∧ calculateStability 3 50 4 ≤ 5) :=
  ⟨by norm_num, by norm_num, by norm_num, by norm_num,
    C7_stability_bounds 3 50 4 (by norm_num) (by norm_num) (by norm_num) (by norm_num)⟩

/-- Concrete existing DecayTracking row used to exercise record_practice. -/
def practiceInputState : DecayTrackState :=
  { decayScore := 50
    stabilityFactor := 1
    lastPracticedAt := some 0
    timesReviewed := 0
    initialDifficulty := 50
    lastQuality := some 3
    nextReviewDate := none }

/-- C3 counterexample: record_practice does not recompute the stability factor
(decay_service.py lines 285-293 never assign `stability_factor`), and the next
review offset uses `int(...)` truncation, not rounding.  On a row with stored
stability 1.0, timesReviewed 0, difficulty 50, practicing with quality 5: the
stored stability stays 1.0 while the recomputed stability of the updated
history would be 1.2675, and the next review date is 3 days ahead (trunc(3.5))
while the claimed formula on the recomputed stability gives round(4.43625) = 4. -/
theorem C3_no_stability_recompute :
    (recordPractice practiceInputState 0 5).stabilityFactor = 1 ∧
    calculateStability 1 50 5 = 507 / 400 ∧
    (recordPractice practiceInputState 0 5).stabilityFactor ≠ calculateStability 1 50 5 ∧
    (recordPractice practiceInputState 0 5).nextReviewDate = some 3 ∧
    (3 : ℤ) ≠ max 1 (round (calculateStability 1 50 5 * DECAY_HALF_LIFE_DAYS * (1 / 2))) := by
  have hst : calculateStability 1 50 5 = 507 / 400 := by
    norm_num [calculateStability, reviewBonus, REVIEW_STABILITY_BONUS,
      MAX_STABILITY_MULTIPLIER]
  have hfd : ((0 : ℤ) + 3 * 86400).fdiv 86400 = 3 := by decide
  refine ⟨rfl, hst, ?_, ?_, ?_⟩
  · rw [hst]
    norm_num [recordPractice, practiceInputState]
  · show (recordPractice practiceInputState 0 5).nextReviewDate = some 3
    have hdays : max 1 (pyTruncQ (practiceInputState.stabilityFactor *
        DECAY_HALF_LIFE_DAYS * (1 / 2))) = 3 := by
      norm_num [practiceInputState, pyTruncQ, DECAY_HALF_LIFE_DAYS,
        Int.floor_eq_iff]
    simp only [recordPractice, hdays]
    rw [Option.some_inj, hfd]
  · rw [hst, DECAY_HALF_LIFE_DAYS]
    norm_num [round_eq, Int.floor_eq_iff]

/-- C3 amended: on an existing row, record_practice sets decayScore to 100,
lastPracticedAt to now, increments timesReviewed, stores the quality, leaves
the stability factor unchanged, and sets nextReviewDate to now plus
`max(1, int(stabilityFactor × BASE_HALF_LIFE_DAYS × 0.5))` days, where `int` is
truncation (the stored, not recomputed, stability factor is used). -/
theorem C3_record_practice_update (s : DecayTrackState) (now q : ℤ) :
    (recordPractice s now q).decayScore = 100 ∧
    (recordPractice s now q).lastPracticedAt = some now ∧
    (recordPractice s now q).timesReviewed = s.timesReviewed + 1 ∧
    (recordPractice s now q).lastQuality = some q ∧
    (recordPractice s now q).stabilityFactor = s.stabilityFactor ∧
    (recordPractice s now q).nextReviewDate =
      some ((now + max 1 (pyTruncQ (s.stabilityFactor * DECAY_HALF_LIFE_DAYS * (1 / 2)))
        * 86400).fdiv 86400) :=
  ⟨rfl, rfl, rfl, rfl, rfl, rfl⟩

/-- C1: calculate_decay_score does not always return a result.  decay.py line 27
imports the class `datetime`, so `datetime.timedelta` at line 132 raises
AttributeError whenever the branch guarded by `days_until_warning > 0`
(score strictly above the warning threshold 60 with at least one day remaining)
is reached.  Evaluated at the failing input: an item practiced at this instant
(elapsed 0, score 100), default history (0 reviews, difficulty 50, quality 4). -/
theorem C1_evaluate_raises_above_warning : calculateDecayScore 0 0 50 4 0 = none := by
  have hst : calculateStability 0 50 4 = 177 / 200 := by
    norm_num [calculateStability, reviewBonus, MAX_STABILITY_MULTIPLIER]
  simp only [calculateDecayScore, hst]
  norm_num
  have h100 : pyTruncR (100 : ℝ) = (100 : ℤ) := by
    rw [pyTruncR, if_pos (by norm_num)]
    rw [show ((100 : ℝ)) = ((100 : ℤ) : ℝ) by norm_num, Int.floor_intCast]
  rw [h100]
  norm_num
  rw [daysUntilThreshold]
  norm_num [DECAY_WARNING_THRESHOLD, DECAY_HALF_LIFE_DAYS]
  intro hcon
  exfalso
  have hl2 : (0 : ℝ) < Real.log 2 := Real.log_pos (by norm_num)
  have hl53 : (0 : ℝ) < Real.log (5 / 3) := Real.log_pos (by norm_num)
  have hlog35 : Real.log (3 / 5 : ℝ) = -Real.log (5 / 3) := by
    rw [show ((3 : ℝ) / 5) = (5 / 3)⁻¹ by norm_num, Real.log_inv]
  have h2l : Real.log 2 < 2 * Real.log (5 / 3) := by
    have ha : Real.log 2 < Real.log (25 / 9) := Real.log_lt_log (by norm_num) (by norm_num)
    have hb : Real.log ((25 : ℝ) / 9) = 2 * Real.log (5 / 3) := by
      rw [show ((25 : ℝ) / 9) = (5 / 3) ^ 2 by norm_num, Real.log_pow]
      push_cast
      ring
    linarith
  have hD : (1 : ℝ) ≤ -(1239 / 200 * Real.log (3 / 5)) / Real.log 2 := by
    rw [hlog35, le_div_iff₀ hl2]
    nlinarith
  have hfl : (1 : ℤ) ≤ pyTruncR (-(1239 / 200 * Real.log (3 / 5)) / Real.log 2) := by
    rw [pyTruncR, if_pos (by linarith)]
    exact Int.le_floor.mpr (by exact_mod_cast hD)
  omega

theorem decayFourteenDayEval :
    calculateDecayScore 0 0 50 4 1209600 =
      some { decayScore := 20, status := DecayStatus.critical, daysUntilCritical := none,
             recommendedReviewDate := 1209600, stabilityFactor := 177 / 200 } ∧
    calculateStability 0 50 4 = 177 / 200 ∧
    (1 / 5 : ℝ) < Real.exp (-(2800 / 1239) * Real.log 2) ∧
    Real.exp (-(2800 / 1239) * Real.log 2) < 21 / 100 := by
  have hst : calculateStability 0 50 4 = 177 / 200 := by
    norm_num [calculateStability, reviewBonus, MAX_STABILITY_MULTIPLIER]
  set R := Real.exp (-(2800 / 1239) * Real.log 2) with hRdef
  have hRpos : (0 : ℝ) < R := Real.exp_pos _
  have hrpow : R = (2 : ℝ) ^ (-(2800 / 1239) : ℝ) := by
    rw [Real.rpow_def_of_pos (by norm_num : (0 : ℝ) < 2), hRdef, mul_comm]
  have hpow : R ^ (1239 : ℕ) = ((2 : ℝ) ^ (2800 : ℕ))⁻¹ := by
    rw [hrpow, ← Real.rpow_natCast ((2 : ℝ) ^ (-(2800 / 1239) : ℝ)) 1239,
      ← Real.rpow_mul (by norm_num : (0 : ℝ) ≤ 2)]
    rw [show (-(2800 / 1239) : ℝ) * ((1239 : ℕ) : ℝ) = -((2800 : ℕ) : ℝ) by push_cast; norm_num]
    rw [Real.rpow_neg (by norm_num : (0 : ℝ) ≤ 2), Real.rpow_natCast]
  have h2_5 : (2 : ℝ) ^ (2800 : ℕ) < 5 ^ (1239 : ℕ) := by
    have h : (2 : ℕ) ^ 2800 < 5 ^ 1239 := by norm_num
    exact_mod_cast h
  have h100_21 : (100 : ℝ) ^ (1239 : ℕ) < 21 ^ (1239 : ℕ) * 2 ^ (2800 : ℕ) := by
    have h : (100 : ℕ) ^ 1239 < 21 ^ 1239 * 2 ^ 2800 := by norm_num
    exact_mod_cast h
  have hlow : (1 / 5 : ℝ) < R := by
    apply lt_of_pow_lt_pow_left₀ 1239 (le_of_lt hRpos)
    rw [hpow, one_div, inv_pow]
    exact inv_strictAnti₀ (by positivity) h2_5
  have hup : R < 21 / 100 := by
    apply lt_of_pow_lt_pow_left₀ 1239 (by norm_num : (0 : ℝ) ≤ 21 / 100)
    rw [hpow, div_pow, inv_eq_one_div, div_lt_div_iff₀ (by positivity) (by positivity), one_mul]
    exact h100_21
  refine ⟨?_, hst, hlow, hup⟩
  simp only [calculateDecayScore, hst]
  norm_num
  have hh : ((DECAY_HALF_LIFE_DAYS : ℚ) : ℝ) = 7 := by norm_num [DECAY_HALF_LIFE_DAYS]
  rw [hh]
  have harg : -14 / ((7 : ℝ) * (177 / 200)) * Real.log 2 = -(2800 / 1239) * Real.log 2 := by
    norm_num
  rw [harg, ← hRdef]
  have hfloor : pyTruncR (R * 100) = 20 := by
    rw [pyTruncR, if_pos (by positivity)]
    rw [Int.floor_eq_iff]
    constructor
    · push_cast
      linarith
    · push_cast
      linarith
  rw [hfloor]
  have hclamp : (0 ⊔ (100 ⊓ (20 : ℤ))) = 20 := by decide
  rw [hclamp]
  rw [daysUntilThreshold, if_pos (by norm_num [DECAY_WARNING_THRESHOLD])]
  rw [daysUntilThreshold, if_pos (by norm_num [DECAY_CRITICAL_THRESHOLD])]
  norm_num [getStatus]

/-- C4 counterexample: for the state {timesReviewed 0, difficulty 50, quality 4,
practiced 14 days ago}, the code's score is 20 with status Critical, not
approximately 11 with status Forgotten as claimed (the spec example dropped the
ln 2 factor of the exponent). -/
theorem C4_fourteen_day_not_forgotten :
    (calculateDecayScore 0 0 50 4 1209600).map DecayResult.status =
      some DecayStatus.critical ∧
    (calculateDecayScore 0 0 50 4 1209600).map DecayResult.status ≠
      some DecayStatus.forgotten ∧
    (calculateDecayScore 0 0 50 4 1209600).map DecayResult.decayScore = some 20 ∧
    (calculateDecayScore 0 0 50 4 1209600).map DecayResult.decayScore ≠ some 11 := by
  rw [decayFourteenDayEval.1]
  refine ⟨rfl, by simp, rfl, by simp⟩

/-- C4 amended: for that state, stability is exactly 0.885 (half-life
7 × 0.885 = 6.195 ≈ 6.2 days), the retention 2^(−14/6.195) lies strictly
between 0.20 and 0.21 (≈ 0.209, not ≈ 0.106), and the decay score is 20 with
status Critical (not ≈ 11 / Forgotten); daysUntilCritical is null and the
recommended review date is `now` since the score is at the critical band. -/
theorem C4_fourteen_day_example :
    calculateDecayScore 0 0 50 4 1209600 =
      some { decayScore := 20, status := DecayStatus.critical, daysUntilCritical := none,
             recommendedReviewDate := 1209600, stabilityFactor := 177 / 200 } ∧
    calculateStability 0 50 4 = 177 / 200 ∧
    (1 / 5 : ℝ) < Real.exp (-(2800 / 1239) * Real.log 2) ∧
    Real.exp (-(2800 / 1239) * Real.log 2) < 21 / 100 :=
  decayFourteenDayEval

theorem prefix_pos_length_le {l t : List ℕ} (ht : t <+: l) (hpos : ∀ x ∈ t, 0 < x) :
    t.length ≤ (l.takeWhile (fun c => decide (0 < c))).length := by
  induction l generalizing t with
  | nil =>
    rw [List.prefix_nil.mp ht]
    simp
  | cons c rest ih =>
    cases t with
    | nil => simp
    | cons a t' =>
      rcases List.cons_prefix_cons.mp ht with ⟨rfl, ht'⟩
      have hc : 0 < a := hpos a (by simp)
      rw [List.takeWhile_cons_of_pos (by simpa using hc)]
      simpa using ih ht' fun x hx => hpos x (by simp [hx])

theorem backwardScan_eq_takeWhile (l : List ℕ) :
    backwardScan l = (l.takeWhile (fun c => decide (0 < c))).length := by
  induction l with
  | nil => rfl
  | cons c rest ih =>
    by_cases hc : 0 < c
    · rw [backwardScan, if_pos hc, List.takeWhile_cons_of_pos (by simpa using hc)]
      simp [ih]
    · rw [backwardScan, if_neg hc, List.takeWhile_cons_of_neg (by simpa using hc)]
      rfl

theorem streaksFold_invariant (l : List ℕ) :
    (l.foldr (fun c acc => streakStep acc c) (0, 0)).1 =
      (l.takeWhile (fun c => decide (0 < c))).length ∧
    IsGreatest {k | ∃ t, PosRun l t ∧ t.length = k}
      (l.foldr (fun c acc => streakStep acc c) (0, 0)).2 := by
  induction l with
  | nil =>
    refine ⟨rfl, ⟨⟨[], ⟨List.nil_infix, by simp⟩, rfl⟩, ?_⟩⟩
    rintro k ⟨t, ⟨hinf, _⟩, hlen⟩
    have := hinf.length_le
    simp only [List.length_nil] at this
    omega
  | cons c rest ih =>
    obtain ⟨ih1, ⟨⟨tb, hb, hblen⟩, ihub⟩⟩ := ih
    by_cases hc : 0 < c
    · have hstep : (c :: rest).foldr (fun c acc => streakStep acc c) (0, 0) =
          ((rest.foldr (fun c acc => streakStep acc c) (0, 0)).1 + 1,
           max (rest.foldr (fun c acc => streakStep acc c) (0, 0)).2
             ((rest.foldr (fun c acc => streakStep acc c) (0, 0)).1 + 1)) := by
        rw [List.foldr_cons, streakStep, if_pos hc]
      rw [hstep]
      have htw : ((c :: rest).takeWhile (fun c => decide (0 < c))).length =
          (rest.takeWhile (fun c => decide (0 < c))).length + 1 := by
        rw [List.takeWhile_cons_of_pos (by simpa using hc)]
        simp
      refine ⟨by rw [htw, ih1], ?_, ?_⟩
      · -- membership: the max is attained by a run of c :: rest
        rcases le_or_lt ((rest.foldr (fun c acc => streakStep acc c) (0, 0)).1 + 1)
            (rest.foldr (fun c acc => streakStep acc c) (0, 0)).2 with hle | hlt
        · rw [max_eq_left hle]
          exact ⟨tb, ⟨hb.1.trans (List.infix_cons (List.infix_refl _)), hb.2⟩, hblen⟩
        · rw [max_eq_right (le_of_lt hlt)]
          refine ⟨c :: rest.takeWhile (fun c => decide (0 < c)), ⟨?_, ?_⟩, ?_⟩
          · exact (List.cons_prefix_cons.mpr ⟨rfl, List.takeWhile_prefix _⟩).isInfix
          · intro x hx
            rcases List.mem_cons.mp hx with rfl | hx'
            · exact hc
            · simpa using List.mem_takeWhile_imp hx'
          · simp only [List.length_cons, ih1]
      · -- upper bound
        rintro k ⟨t, ⟨hinf, hpos⟩, hlen⟩
        rcases List.infix_cons_iff.mp hinf with hpre | hinf'
        · have := prefix_pos_length_le hpre hpos
          rw [htw, ih1] at *
          omega
        · have hk : k ≤ (rest.foldr (fun c acc => streakStep acc c) (0, 0)).2 :=
            ihub ⟨t, ⟨hinf', hpos⟩, hlen⟩
          omega
    · have hstep : (c :: rest).foldr (fun c acc => streakStep acc c) (0, 0) =
          (0, (rest.foldr (fun c acc => streakStep acc c) (0, 0)).2) := by
        rw [List.foldr_cons, streakStep, if_neg hc]
      rw [hstep]
      have htw : ((c :: rest).takeWhile (fun c => decide (0 < c))).length = 0 := by
        rw [List.takeWhile_cons_of_neg (by simpa using hc)]
        rfl
      refine ⟨by rw [htw], ?_, ?_⟩
      · exact ⟨tb, ⟨hb.1.trans (List.infix_cons (List.infix_refl _)), hb.2⟩, hblen⟩
      · rintro k ⟨t, ⟨hinf, hpos⟩, hlen⟩
        rcases List.infix_cons_iff.mp hinf with hpre | hinf'
        · cases t with
          | nil => simp at hlen; omega
          | cons a t' =>
            rcases List.cons_prefix_cons.mp hpre with ⟨rfl, _⟩
            exact absurd (hpos a (by simp)) hc
        · exact ihub ⟨t, ⟨hinf', hpos⟩, hlen⟩

/-- C10: the heatmap streak computation is correct: current_streak is the
number of consecutive practiced days walking backward from the window end until
the first zero-count day, and longest_streak is the greatest length of a
contiguous all-practiced run anywhere in the window; in particular counts
[1,1,1,0,1] (practice on days 1,2,3,5 of a 5-day window) give current streak 1
and longest streak 3. -/
theorem C10_streaks_correct (days : List ℕ) :
    (calculateStreaks days).1 = (days.reverse.takeWhile (fun c => decide (0 < c))).length ∧
    IsGreatest {k | ∃ t, PosRun days t ∧ t.length = k} (calculateStreaks days).2 ∧
    calculateStreaks [1, 1, 1, 0, 1] = (1, 3) :=
  ⟨backwardScan_eq_takeWhile _, (streaksFold_invariant days).2, by decide⟩
